import Mathlib

/-!
Verification of the motion/trajectory core of the Six-Axis-Manipulator
repository (ST3215_Control example programs: HomeAll, TeachMode,
ContinuousTeach, ManualControl, ReachObject).

The C++ sources are shallowly embedded here:
  * `double` angle arithmetic is modelled over `ℚ` (all quantities involved
    in the verified properties are exactly representable);
  * the trajectory file is modelled as its whitespace-separated stream of
    integer tokens, with C++11 `operator>>` semantics (a failed extraction
    stores 0 and leaves the stream exhausted);
  * servo/torque traffic is modelled as explicit event lists;
  * the circle tracer of ManualControl uses `Real.cos`/`Real.sin` with the
    C cast-truncation toward zero.
-/

/-! ## Angle/step conversion (HomeAll.cpp, ReachObject.cpp) -/

/-- Embedding of `degreesToSteps` (identical in HomeAll.cpp lines 100-111 and
ReachObject.cpp lines 30-35):
`steps = 2048.0 + (deg/360.0)*4096.0`, then `while(steps < 0) steps += 4096;
while(steps >= 4096) steps -= 4096;` (expressed closed-form as subtracting
`4096 * ⌊steps/4096⌋`, which is what the two loops compute for any rational),
and finally `(int)(steps + 0.5)`; the truncation toward zero of the C cast is
`Int.floor` here because `steps + 0.5 > 0` always holds after the wrap. -/
def degreesToSteps (deg : ℚ) : ℤ :=
  let raw : ℚ := 2048 + deg / 360 * 4096
  let steps : ℚ := raw - 4096 * ⌊raw / 4096⌋
  ⌊steps + 1/2⌋

/-- Embedding of the read-back steps-to-degrees conversion in HomeAll.cpp
lines 364-381: `angle = (pos / 4096.0) * 360.0`, then
`if(centered >= 360.0) centered -= 360.0; if(centered > 180.0) centered -= 360.0;`. -/
def stepsToDegrees (pos : ℤ) : ℚ :=
  let angle : ℚ := pos / 4096 * 360
  let c1 : ℚ := if angle ≥ 360 then angle - 360 else angle
  if c1 > 180 then c1 - 360 else c1

/-! ## Joint limits and the single-joint mover (ReachObject.cpp) -/

/-- Per-joint minimum angles `JOINT_MIN_DEG` (ReachObject.cpp / HomeAll.cpp). -/
def jointMinDeg : List ℤ := [-165, -125, -140, -140, -140, -175, -180]

/-- Per-joint maximum angles `JOINT_MAX_DEG` (ReachObject.cpp / HomeAll.cpp). -/
def jointMaxDeg : List ℤ := [165, 125, 140, 140, 140, 175, 180]

/-- Fixed base-joint mounting offset `J1_OFFSET = 90.0`. -/
def j1Offset : ℚ := 90

/-- Clamping of a commanded angle to the limits of joint `idx` (0-based),
as in `moveJoint` of ReachObject.cpp lines 47-57. -/
def clampJoint (idx : ℕ) (deg : ℚ) : ℚ :=
  let lo : ℚ := jointMinDeg.getD idx 0
  let hi : ℚ := jointMaxDeg.getD idx 0
  let d1 : ℚ := if deg < lo then lo else deg
  if d1 > hi then hi else d1

/-- Step target computed by `moveJoint(id, target_deg, speed)` of
ReachObject.cpp: add `J1_OFFSET` for the base joint, clamp, convert. -/
def moveJointTarget (id : ℕ) (deg : ℚ) : ℤ :=
  degreesToSteps (clampJoint (id - 1) (if id = 1 then deg + j1Offset else deg))

/-- Gripper read-back conversion in `approachObject` (ReachObject.cpp lines
136-140): `gripper_angle = (gripper_pos / 4096.0) * 360.0;
if(gripper_angle > 180.0) gripper_angle -= 360.0;`. -/
def gripperReadAngle (pos : ℤ) : ℚ :=
  let a : ℚ := pos / 4096 * 360
  if a > 180 then a - 360 else a

/-- Grasp-verification test of ReachObject.cpp line 145:
`if(gripper_angle > -25)` the object is declared grasped. -/
def verifyGrasp (pos : ℤ) : Bool :=
  gripperReadAngle pos > -25

/-- The claim names the contract of `degreesToSteps`: wrap into `[0,4096)`,
round to nearest, result always in `[0,4095]`.  The code violates the range
clause on the boundary sliver: any input whose wrapped value lands in
`[4095.5, 4096)` rounds up to 4096, one past the maximum encodable step.
C1: at `deg = 179.97` the converter returns 4096, outside `[0,4095]`,
contradicting the normalisation comment in the source itself. -/
theorem degreesToSteps_returns_4096_at_179_97 :
    degreesToSteps (17997/100) = 4096 ∧ ¬ degreesToSteps (17997/100) ≤ 4095 := by
  constructor
  · norm_num [degreesToSteps]
  · norm_num [degreesToSteps]

/-! ## The step → degrees → step round trip (C2) -/

/-- Computation of `degreesToSteps` on any angle of the form `n * (360/4096)`
degrees, `n : ℤ`: the converter lands exactly on step `(n + 2048) mod 4096`. -/
lemma degreesToSteps_int_mul (n : ℤ) :
    degreesToSteps ((n : ℚ) * 45 / 512) = (n + 2048) % 4096 := by
  have hraw : (2048 : ℚ) + ((n : ℚ) * 45 / 512) / 360 * 4096 = ((n + 2048 : ℤ) : ℚ) := by
    push_cast; ring
  have hfloor : ⌊((n + 2048 : ℤ) : ℚ) / 4096⌋ = (n + 2048) / 4096 := by
    exact_mod_cast Rat.floor_intCast_div_natCast (n + 2048) 4096
  show ⌊(2048 + ((n : ℚ) * 45 / 512) / 360 * 4096)
        - 4096 * (⌊(2048 + ((n : ℚ) * 45 / 512) / 360 * 4096) / 4096⌋ : ℤ) + 1/2⌋
      = (n + 2048) % 4096
  rw [hraw, hfloor]
  have h2 : ((n + 2048 : ℤ) : ℚ) - 4096 * (((n + 2048) / 4096 : ℤ) : ℚ)
      = (((n + 2048) % 4096 : ℤ) : ℚ) := by
    rw [Int.emod_def]; push_cast; ring
  rw [h2, add_comm, Int.floor_add_int]
  norm_num

/-- Unfolding of the HomeAll read-back conversion on an in-range step value:
it returns `(s - (4096 if s > 2048 else 0)) * (360/4096)` degrees. -/
lemma stepsToDegrees_eq (s : ℤ) (h0 : 0 ≤ s) (h1 : s ≤ 4095) :
    stepsToDegrees s = ((s - if 2048 < s then 4096 else 0 : ℤ) : ℚ) * 45 / 512 := by
  have hq0 : (0 : ℚ) ≤ (s : ℚ) := by exact_mod_cast h0
  have hq1 : (s : ℚ) ≤ 4095 := by exact_mod_cast h1
  have hb1 : ¬ ((s : ℚ) / 4096 * 360 ≥ 360) := by
    rw [not_le]; nlinarith
  rcases le_or_lt s 2048 with hc | hc
  · have hq2 : (s : ℚ) ≤ 2048 := by exact_mod_cast hc
    have hb2 : ¬ ((s : ℚ) / 4096 * 360 > 180) := by
      rw [not_lt]; nlinarith
    simp only [stepsToDegrees, hb1, hb2, if_false, if_neg (not_lt.mpr hc)]
    push_cast; ring
  · have hq2 : (2048 : ℚ) < (s : ℚ) := by exact_mod_cast hc
    have hb2 : (s : ℚ) / 4096 * 360 > 180 := by nlinarith
    simp only [stepsToDegrees, hb1, hb2, if_false, if_true, if_pos hc]
    push_cast; ring

/-- C2 counterexample: the claimed round trip fails at step 0.  Reading step 0
back as degrees gives 0° (the read-back conversion omits the 2048-step centre
offset), and converting 0° to steps gives 2048, not 0. -/
theorem roundTrip_fails_at_step_zero :
    degreesToSteps (stepsToDegrees 0) = 2048 ∧ (2048 : ℤ) ≠ 0 := by
  constructor
  · norm_num [stepsToDegrees, degreesToSteps]
  · decide

/-- C2 amended: for every step in `[0,4095]`, converting the step to degrees
with the read-back formula and back to steps yields `(step + 2048) mod 4096`
— the original step shifted by half a revolution, because the read-back
conversion `raw = step/4096*360` omits the centre offset that
`degreesToSteps` adds. -/
theorem roundTrip_shifted_by_2048 (s : ℤ) (h0 : 0 ≤ s) (h1 : s ≤ 4095) :
    degreesToSteps (stepsToDegrees s) = (s + 2048) % 4096 := by
  rw [stepsToDegrees_eq s h0 h1, degreesToSteps_int_mul]
  rcases le_or_lt s 2048 with hc | hc
  · rw [if_neg (not_lt.mpr hc)]; omega
  · rw [if_pos hc]; omega

/-- Witness for the amended C2 at step 100. -/
theorem roundTrip_shifted_by_2048_witness :
    degreesToSteps (stepsToDegrees 100) = (100 + 2048) % 4096 :=
  roundTrip_shifted_by_2048 100 (by decide) (by decide)

/-! ## Trajectory persistence (TeachMode.cpp, ContinuousTeach.cpp)

The trajectory file is plain text: a count header followed by one line per
waypoint, `<timestamp> <step_1> ... <step_7>`.  Both programs read it with
`operator>>`, so the file is faithfully represented by its stream of integer
tokens.  C++11 extraction semantics: a failed extraction (exhausted stream)
stores 0 into its target, and every later extraction also fails, so a
truncated stream supplies 0 for every missing value. -/

/-- Waypoint of TeachMode.cpp / trajectory point of ContinuousTeach.cpp:
seven raw step positions (`int positions[7]`) and one timestamp. -/
structure Waypoint where
  timestamp : ℤ
  positions : Fin 7 → ℤ

instance : DecidableEq Waypoint := fun a b =>
  decidable_of_iff (a.timestamp = b.timestamp ∧ a.positions = b.positions)
    (by cases a; cases b; simp)

/-- Token stream written by `saveTrajectory` (ContinuousTeach.cpp lines
357-374) and the TeachMode save branch (TeachMode.cpp lines 298-323):
the waypoint count, then for each waypoint its timestamp followed by the
seven positions in joint order. -/
def saveTrajectoryToks (traj : List Waypoint) : List ℤ :=
  (traj.length : ℤ) :: traj.flatMap (fun w => w.timestamp :: List.ofFn w.positions)

/-- Reading of one waypoint from the token stream: one timestamp and seven
positions, each a sequential `operator>>` extraction (0 when the stream is
exhausted), consuming eight tokens. -/
def loadOne (ts : List ℤ) : Waypoint × List ℤ :=
  (⟨ts.headD 0, fun i => ts.tail.getD i 0⟩, ts.drop 8)

/-- Loop body of `loadTrajectory`: read `count` waypoints in order. -/
def loadMany : ℕ → List ℤ → List Waypoint
  | 0, _ => []
  | n + 1, ts => (loadOne ts).1 :: loadMany n (loadOne ts).2

/-- Embedding of `loadTrajectory` after the file has been opened
(TeachMode.cpp lines 229-251, ContinuousTeach.cpp lines 378-400): clear the
trajectory, read the count, read that many waypoints, return `true`.  No
validation of any kind is performed on the way. -/
def loadTrajectoryToks (ts : List ℤ) : Bool × List Waypoint :=
  (true, loadMany (ts.headD 0).toNat ts.tail)

/-- Embedding of the whole of `loadTrajectory`, file opening included:
`none` models a path that cannot be opened (`!file.is_open()`), in which case
the function returns `false` before touching the current trajectory. -/
def loadTrajectoryFile (file : Option (List ℤ)) (current : List Waypoint) :
    Bool × List Waypoint :=
  match file with
  | none => (false, current)
  | some ts => loadTrajectoryToks ts

/-- Reading back the eight tokens just written for one waypoint recovers the
waypoint and leaves exactly the rest of the stream. -/
lemma loadOne_save (w : Waypoint) (rest : List ℤ) :
    loadOne (w.timestamp :: List.ofFn w.positions ++ rest) = (w, rest) := by
  have hp : (fun i : Fin 7 => ((List.ofFn w.positions ++ rest).getD (i : ℕ) 0)) = w.positions := by
    funext i
    rw [List.getD_append _ _ _ _ (by simp [i.isLt])]
    rw [List.getD_eq_getElem _ _ (by simp [i.isLt])]
    rw [List.getElem_ofFn]
  have hd : List.drop 8 (w.timestamp :: List.ofFn w.positions ++ rest) = rest := by
    rw [List.drop_left' (by simp)]
  unfold loadOne
  rw [Prod.mk.injEq]
  refine ⟨?_, hd⟩
  simp only [List.cons_append, List.headD_cons, List.tail_cons]
  rw [hp]

/-- Loading exactly `traj.length` waypoints from the stream written for
`traj` recovers `traj`. -/
lemma loadMany_save (traj : List Waypoint) :
    loadMany traj.length (traj.flatMap (fun w => w.timestamp :: List.ofFn w.positions)) = traj := by
  induction traj with
  | nil => rfl
  | cons w rest ih =>
      show loadMany (rest.length + 1) _ = w :: rest
      rw [loadMany]
      have hb : (w :: rest).flatMap (fun w => w.timestamp :: List.ofFn w.positions)
          = w.timestamp :: List.ofFn w.positions
            ++ rest.flatMap (fun w => w.timestamp :: List.ofFn w.positions) := by
        simp
      rw [hb, loadOne_save]
      simpa using ih

/-- C3: saving a non-empty trajectory (count header, then one line per
waypoint: timestamp followed by the seven step values) and loading the file
back yields a structurally equal trajectory — same count, same positions,
same timestamps — and the load reports success. -/
theorem save_load_roundtrip (traj : List Waypoint) (h : 1 ≤ traj.length) :
    loadTrajectoryToks (saveTrajectoryToks traj) = (true, traj) := by
  unfold loadTrajectoryToks saveTrajectoryToks
  simp only [List.headD_cons, List.tail_cons, Int.toNat_natCast]
  rw [loadMany_save]

/-- Witness for C3 on the one-waypoint trajectory with timestamp 5 and all
positions 2048. -/
theorem save_load_roundtrip_witness :
    loadTrajectoryToks (saveTrajectoryToks [⟨5, fun _ => 2048⟩]) = (true, [⟨5, fun _ => 2048⟩]) :=
  save_load_roundtrip [⟨5, fun _ => 2048⟩] (by decide)

/-! ## Malformed files and unopenable files (C4, C10) -/

/-- Length of a loaded trajectory: `loadTrajectory` always reads exactly the
number of waypoints announced by the count header, whatever the stream holds. -/
lemma loadMany_length (n : ℕ) (ts : List ℤ) : (loadMany n ts).length = n := by
  induction n generalizing ts with
  | zero => rfl
  | succ m ih => simp [loadMany, ih]

/-- C4 counterexample: the file `"2\n10 1 2 3 4 5 6 7"` announces two
waypoints but contains only one data line.  `loadTrajectory` does not fail:
it returns success and a two-waypoint trajectory whose second waypoint is
fabricated from failed extractions (timestamp 0, all positions 0). -/
theorem load_truncated_file_succeeds :
    (loadTrajectoryToks [2, 10, 1, 2, 3, 4, 5, 6, 7]).1 = true ∧
    (loadTrajectoryToks [2, 10, 1, 2, 3, 4, 5, 6, 7]).2.length = 2 ∧
    ((loadTrajectoryToks [2, 10, 1, 2, 3, 4, 5, 6, 7]).2.getD 1 ⟨1, fun _ => 1⟩).timestamp = 0 ∧
    ((loadTrajectoryToks [2, 10, 1, 2, 3, 4, 5, 6, 7]).2.getD 1 ⟨1, fun _ => 1⟩).positions 0 = 0 :=
  ⟨rfl, rfl, rfl, rfl⟩

/-- C4 amended: `loadTrajectory` performs no validation at all.  Whenever the
file opens it reports success, and it returns exactly the trajectory length
announced by the count header, with every missing or truncated value read
as 0 — a malformed file yields a partial, zero-padded trajectory rather
than a descriptive error. -/
theorem load_never_fails_after_open (ts : List ℤ) :
    (loadTrajectoryToks ts).1 = true ∧
    (loadTrajectoryToks ts).2.length = (ts.headD 0).toNat :=
  ⟨rfl, loadMany_length _ _⟩

/-- C10: when the path cannot be opened, `loadTrajectory` returns `false`
with the in-memory trajectory untouched (the `trajectory.clear()` sits after
the `is_open` check), and once the file has opened the result no longer
depends on the previous in-memory trajectory (it is cleared and replaced). -/
theorem load_unopenable_preserves_trajectory (cur : List Waypoint) (ts : List ℤ) :
    loadTrajectoryFile none cur = (false, cur) ∧
    loadTrajectoryFile (some ts) cur = loadTrajectoryToks ts :=
  ⟨rfl, rfl⟩

/-! ## The continuous recorder and the empty session (C5) -/

/-- Embedding of the sampling loop of `recordContinuous` (ContinuousTeach.cpp
lines 212-235).  Each tick carries the elapsed-time stamp taken at its start
and the result of `readAllPositions`: `none` when a servo failed to respond
(the partial sample is discarded, the session continues), `some p` when all
seven positions were read; successful samples are appended in order. -/
def recordContinuousCaptured (ticks : List (ℤ × Option (Fin 7 → ℤ))) : List Waypoint :=
  ticks.filterMap (fun t => t.2.map (fun p => ⟨t.1, p⟩))

/-- Session summary printed after the loop (ContinuousTeach.cpp lines
237-243): the source reads `trajectory.back().timestamp_us` with no guard on
the vector being non-empty.  The unguarded `back()` is modelled by
`getLast?`; the value `none` marks the call on the empty vector, which in
the source is undefined behaviour. -/
def recordContinuousSummary (ticks : List (ℤ × Option (Fin 7 → ℤ))) : Option ℤ :=
  (recordContinuousCaptured ticks).getLast?.map (fun w => w.timestamp)

/-- C5: in a continuous recording session that captures zero waypoints (here:
a single tick whose servo read failed, followed by the quit key), the code
still evaluates `trajectory.back()` in its summary — an operation on the
empty waypoint sequence, modelled by the `getLast?` access coming out
`none`. -/
theorem recordContinuous_empty_session_accesses_back :
    recordContinuousCaptured [(0, none)] = [] ∧
    recordContinuousSummary [(0, none)] = none :=
  ⟨rfl, rfl⟩

/-! ## Torque traffic of the two teaching programs (C6)

The torque-relevant servo traffic is modelled as a list of
`EnableTorque(id, value)` events, in issue order. -/

/-- One `EnableTorque(id, enabled)` command on the bus. -/
structure TorqueEvent where
  servo : ℕ
  enabled : Bool
deriving DecidableEq

/-- Loop `for(int i = 1; i <= 7; i++) sm_st.EnableTorque(i, value);`, used by
both programs to switch all seven servos. -/
def torqueAll (value : Bool) : List TorqueEvent :=
  (List.range 7).map (fun i => ⟨i + 1, value⟩)

/-- Torque events of `recordMode` (TeachMode.cpp lines 88-93): torque is
disabled on all servos at session start; the function issues no further
torque command — in particular none when the recording session ends. -/
def recordModeTorque : List TorqueEvent := torqueAll false

/-- Torque events of TeachMode `main` after the menu loop exits
(TeachMode.cpp lines 339-348): torque re-enabled on all servos. -/
def teachExitTorque : List TorqueEvent := torqueAll true

/-- Torque events of `recordContinuous` (ContinuousTeach.cpp lines 212-220):
torque disabled on all servos at session start, never re-enabled by the
function. -/
def recordContinuousTorque : List TorqueEvent := torqueAll false

/-- Torque events of the ContinuousTeach `main` quit branch (lines 501-505):
it prints a message, calls `sm_st.end()` and returns — no torque command of
any kind is issued. -/
def continuousQuitTorque : List TorqueEvent := []

/-- Full torque trace of a TeachMode run consisting of one recording session
followed by quitting from the menu. -/
def teachRunRecordThenQuit : List TorqueEvent := recordModeTorque ++ teachExitTorque

/-- Full torque trace of a ContinuousTeach run consisting of one recording
session followed by quitting from the menu. -/
def continuousRunRecordThenQuit : List TorqueEvent :=
  recordContinuousTorque ++ continuousQuitTorque

/-- Torque state of servo `id` at the end of a trace: the value of the last
torque command addressed to it, `none` if it was never addressed. -/
def finalTorque (trace : List TorqueEvent) (id : ℕ) : Option Bool :=
  ((trace.filter (fun e => e.servo = id)).getLast?).map (fun e => e.enabled)

/-- C6 counterexample: in the continuous-teaching program a recording session
followed by quitting leaves servo 1 (indeed every servo) with torque
disabled — the quit path issues no torque re-enable, so torque is not
restored when the session ends. -/
theorem continuous_quit_leaves_torque_disabled :
    finalTorque continuousRunRecordThenQuit 1 = some false ∧
    (some false : Option Bool) ≠ some true := by
  refine ⟨by decide, by decide⟩

/-- C6 amended: both recorder variants disable torque on all seven joints for
the session duration.  The manual-trigger program re-enables torque on all
joints only when the whole program exits (not when the recording session
itself ends); the continuous program never re-enables torque — after a
record-then-quit run every joint is left with torque disabled. -/
theorem torque_restoration_by_variant :
    (∀ i : Fin 7, finalTorque recordModeTorque ((i : ℕ) + 1) = some false ∧
      finalTorque recordContinuousTorque ((i : ℕ) + 1) = some false) ∧
    (∀ i : Fin 7, finalTorque teachRunRecordThenQuit ((i : ℕ) + 1) = some true) ∧
    (∀ i : Fin 7, finalTorque continuousRunRecordThenQuit ((i : ℕ) + 1) = some false) := by
  refine ⟨by decide, by decide, by decide⟩

/-! ## Playback motion parameters (C8) -/

/-- Motion parameters used by TeachMode `playbackMode` (TeachMode.cpp lines
193-213): the source sets `int speed = 1200; int acc = 150;` for every
waypoint of the trajectory, the final one included — no lookup on the time
delta to the next waypoint is performed. -/
def teachPlaybackParams (_isLast : Bool) (_deltaMs : ℤ) : ℤ × ℤ := (1200, 150)

/-- Speed/acceleration lookup of `playbackContinuous` (ContinuousTeach.cpp
lines 302-321), keyed on the time (µs) to the next trajectory point; the
last point always gets the slow/smooth `(400, 150)`. -/
def continuousPlaybackParams (isLast : Bool) (deltaUs : ℤ) : ℤ × ℤ :=
  match isLast with
  | true => (400, 150)
  | false =>
    if deltaUs > 200000 then (1200, 80)
    else if deltaUs > 100000 then (800, 120)
    else (600, 150)

/-- Monotonicity of the continuous lookup: a longer gap never gets a lower
speed or a higher acceleration value. -/
lemma continuousParams_mono (a b : ℤ) (h : a ≤ b) :
    (continuousPlaybackParams false a).1 ≤ (continuousPlaybackParams false b).1 ∧
    (continuousPlaybackParams false b).2 ≤ (continuousPlaybackParams false a).2 := by
  unfold continuousPlaybackParams
  split_ifs <;> constructor <;> simp <;> omega

/-- C8 counterexample: the manual-variant player does not derive its motion
parameters from the inter-waypoint delta at all.  A 1000-second gap and a
1-millisecond gap receive the identical `(1200, 150)`, the final waypoint
receives the same `(1200, 150)` rather than a distinguished slowest setting,
and no pair of deltas exists for which the longer gap maps to a higher
speed. -/
theorem teach_playback_params_independent_of_delta :
    teachPlaybackParams false 1000000 = (1200, 150) ∧
    teachPlaybackParams false 1 = (1200, 150) ∧
    teachPlaybackParams true 500 = (1200, 150) ∧
    ¬ ∃ d1 d2 : ℤ, d2 < d1 ∧
      (teachPlaybackParams false d2).1 < (teachPlaybackParams false d1).1 := by
  refine ⟨rfl, rfl, rfl, ?_⟩
  rintro ⟨d1, d2, hlt, hsp⟩
  simp [teachPlaybackParams] at hsp

/-- C8 amended: the delta-keyed lookup policy (longer gap → higher speed and
lower accel; final point → the slowest, smoothest `(400, 150)`) holds for the
continuous-variant player only — gaps above 200 ms get `(1200, 80)`, gaps
above 100 ms get `(800, 120)`, shorter gaps get `(600, 150)`, the lookup is
monotone in the delta, and the final setting is no faster and no less smooth
than any non-final one.  The manual-variant player instead uses the fixed
`(1200, 150)` for every waypoint including the last. -/
theorem playback_params_policy :
    continuousPlaybackParams false 250000 = (1200, 80) ∧
    continuousPlaybackParams false 150000 = (800, 120) ∧
    continuousPlaybackParams false 50000 = (600, 150) ∧
    (∀ d1 d2 : ℤ,
      (continuousPlaybackParams false (min d1 d2)).1 ≤
        (continuousPlaybackParams false (max d1 d2)).1 ∧
      (continuousPlaybackParams false (max d1 d2)).2 ≤
        (continuousPlaybackParams false (min d1 d2)).2) ∧
    (∀ d e : ℤ, continuousPlaybackParams true d = (400, 150) ∧
      (continuousPlaybackParams true d).1 ≤ (continuousPlaybackParams false e).1 ∧
      (continuousPlaybackParams false e).2 ≤ (continuousPlaybackParams true d).2) ∧
    (∀ b : Bool, ∀ d : ℤ, teachPlaybackParams b d = (1200, 150)) := by
  refine ⟨rfl, ?_, ?_, ?_, ?_, fun b d => rfl⟩
  · show continuousPlaybackParams false 150000 = (800, 120)
    norm_num [continuousPlaybackParams]
  · show continuousPlaybackParams false 50000 = (600, 150)
    norm_num [continuousPlaybackParams]
  · intro d1 d2
    exact continuousParams_mono _ _ (min_le_max)
  · intro d e
    refine ⟨rfl, ?_, ?_⟩ <;>
      · show _
        unfold continuousPlaybackParams
        split_ifs <;> simp

/-! ## Grasp-verification sequencer (ReachObject.cpp, C7) -/

/-- Retry loop of ReachObject.cpp `main` (lines 201-232), counting down the
remaining attempts.  `succeedsAt n` is the outcome of `approachObject` on
attempt `n` (determined by the transport).  Result: whether the grasp
succeeded, the number of attempts made, and the number of re-homings issued
inside the loop (`moveHome` runs between a failed non-final attempt and the
next one). -/
def graspRunAux (succeedsAt : ℕ → Bool) (attempt : ℕ) : ℕ → Bool × ℕ × ℕ
  | 0 => (false, 0, 0)
  | r + 1 =>
    if succeedsAt attempt then (true, 1, 0)
    else if r = 0 then (false, 1, 0)
    else
      let rest := graspRunAux succeedsAt (attempt + 1) r
      (rest.1, rest.2.1 + 1, rest.2.2 + 1)

/-- Whole retry phase of ReachObject.cpp `main` (lines 201-241): the loop
over attempts `1..maxAttempts`, plus the final `moveHome` that runs exactly
when the grasp never succeeded.  The initial pre-loop `moveHome` (line 198)
is not counted: the claim speaks of re-homings.  Result as in
`graspRunAux`. -/
def graspRun (succeedsAt : ℕ → Bool) (maxAttempts : ℕ) : Bool × ℕ × ℕ :=
  let r := graspRunAux succeedsAt 1 maxAttempts
  if r.1 then r else (false, r.2.1, r.2.2 + 1)

/-- Process exit code of ReachObject.cpp (line 241): 0 on success, 1
otherwise. -/
def graspExitCode (succeedsAt : ℕ → Bool) (maxAttempts : ℕ) : ℕ :=
  if (graspRun succeedsAt maxAttempts).1 then 0 else 1

/-- C7: with a transport in which the gripper always reaches its fully-closed
commanded angle (-30°, i.e. step 1707), the grasp verification does NOT
retry: the read-back conversion maps step 1707 to +150.03° (it omits the
2048-step centre offset), +150.03° > -25° makes `approachObject` declare the
grasp successful, so the run succeeds on attempt 1 with zero re-homings and
exit code 0 — against the claimed FAILED outcome after `maxAttempts`
attempts, `maxAttempts` re-homings and exit code 1. -/
theorem grasp_succeeds_when_gripper_fully_closes :
    moveJointTarget 7 (-30) = 1707 ∧
    gripperReadAngle 1707 = 76815/512 ∧
    verifyGrasp 1707 = true ∧
    graspRun (fun _ => verifyGrasp (moveJointTarget 7 (-30))) 3 = (true, 1, 0) ∧
    graspExitCode (fun _ => verifyGrasp (moveJointTarget 7 (-30))) 3 = 0 := by
  have h1 : moveJointTarget 7 (-30) = 1707 := by
    norm_num [moveJointTarget, clampJoint, jointMinDeg, jointMaxDeg, j1Offset, degreesToSteps]
  have h2 : gripperReadAngle 1707 = 76815/512 := by
    norm_num [gripperReadAngle]
  have h3 : verifyGrasp 1707 = true := by
    have : (76815/512 : ℚ) > -25 := by norm_num
    simp [verifyGrasp, h2, this]
  have h4 : graspRun (fun _ => verifyGrasp (moveJointTarget 7 (-30))) 3 = (true, 1, 0) := by
    simp [graspRun, graspRunAux, h1, h3]
  refine ⟨h1, h2, h3, h4, ?_⟩
  simp [graspExitCode, h4]

/-! ## Circle tracing (ManualControl.cpp `traceCircle`, C9) -/

/-- Angle of point `i` on the circle: `(2.0 * M_PI * point) / numPoints`
(ManualControl.cpp line 537). -/
noncomputable def circleAngle (numPoints i : ℕ) : ℝ :=
  2 * Real.pi * i / numPoints

/-- Truncation toward zero performed by the C `(int)` cast. -/
noncomputable def intTrunc (x : ℝ) : ℤ :=
  if 0 ≤ x then ⌊x⌋ else -⌊-x⌋

/-- Clamping of a step value into `[MIN_POSITION, MAX_POSITION] = [0, 4095]`
(ManualControl.cpp lines 548-551). -/
def clampStep (x : ℤ) : ℤ :=
  if x < 0 then 0 else if x > 4095 then 4095 else x

/-- Point `i` traced by `traceCircle` (ManualControl.cpp lines 536-552):
`basePos = centerBase + (int)(radius * cos(angle))` and
`shoulderPos = CENTER_POSITION + (int)(radius * sin(angle))`, both clamped
into `[0, 4095]`. -/
noncomputable def circlePoint (centerBase radius : ℤ) (numPoints i : ℕ) : ℤ × ℤ :=
  (clampStep (centerBase + intTrunc (radius * Real.cos (circleAngle numPoints i))),
   clampStep (2048 + intTrunc (radius * Real.sin (circleAngle numPoints i))))

/-- Full sequence of points commanded by the two nested loops of
`traceCircle` (`loops` outer iterations of `numPoints` points each). -/
noncomputable def traceCircle (centerBase radius : ℤ) (numPoints loops : ℕ) : List (ℤ × ℤ) :=
  (List.range loops).flatMap
    (fun _ => (List.range numPoints).map (circlePoint centerBase radius numPoints))

lemma intTrunc_intCast (n : ℤ) : intTrunc (n : ℝ) = n := by
  unfold intTrunc
  split_ifs
  · exact Int.floor_intCast n
  · rw [← Int.cast_neg, Int.floor_intCast]; ring

lemma clampStep_bounds (x : ℤ) : 0 ≤ clampStep x ∧ clampStep x ≤ 4095 := by
  unfold clampStep
  split_ifs <;> omega

/-- C9: `traceCircle(center=2048, radius=500, numPoints=36, loops=1)` emits
exactly 36 points, namely point `i` at angle `2π·i/36` with base position
`2048 + trunc(500·cos θ)` and shoulder position `2048 + trunc(500·sin θ)`,
each clamped into `[0, 4095]`; point 0 is exactly `(2548, 2048)` and point 9
(the quarter turn) is exactly `(2048, 2548)`. -/
theorem traceCircle_contract :
    (traceCircle 2048 500 36 1).length = 36 ∧
    traceCircle 2048 500 36 1 = (List.range 36).map (circlePoint 2048 500 36) ∧
    circlePoint 2048 500 36 0 = (2548, 2048) ∧
    circlePoint 2048 500 36 9 = (2048, 2548) ∧
    (∀ i : ℕ, 0 ≤ (circlePoint 2048 500 36 i).1 ∧ (circlePoint 2048 500 36 i).1 ≤ 4095 ∧
      0 ≤ (circlePoint 2048 500 36 i).2 ∧ (circlePoint 2048 500 36 i).2 ≤ 4095) := by
  have hlist : traceCircle 2048 500 36 1 = (List.range 36).map (circlePoint 2048 500 36) := by
    rw [traceCircle, show List.range 1 = [0] from rfl]
    simp
  have hang0 : circleAngle 36 0 = 0 := by
    simp [circleAngle]
  have hang9 : circleAngle 36 9 = Real.pi / 2 := by
    unfold circleAngle
    push_cast
    ring
  have hp0 : circlePoint 2048 500 36 0 = (2548, 2048) := by
    unfold circlePoint
    rw [hang0, Real.cos_zero, Real.sin_zero, mul_one, mul_zero]
    rw [show (0 : ℝ) = ((0 : ℤ) : ℝ) by norm_num, intTrunc_intCast, intTrunc_intCast]
    decide
  have hp9 : circlePoint 2048 500 36 9 = (2048, 2548) := by
    unfold circlePoint
    rw [hang9, Real.cos_pi_div_two, Real.sin_pi_div_two, mul_one, mul_zero]
    rw [show (0 : ℝ) = ((0 : ℤ) : ℝ) by norm_num, intTrunc_intCast, intTrunc_intCast]
    decide
  refine ⟨by rw [hlist]; simp, hlist, hp0, hp9, ?_⟩
  intro i
  unfold circlePoint
  refine ⟨(clampStep_bounds _).1, (clampStep_bounds _).2,
    (clampStep_bounds _).1, (clampStep_bounds _).2⟩
